import Mathlib

/-!
Verification of `setup_vscode.py`, a one-shot configurator that discovers
Python search paths and locally built packages in a ROS 2 workspace and
merges them into `.vscode/settings.json` and `pyproject.toml`.

The development shallowly embeds the script: the filesystem is a value
(a directory predicate plus the enumeration order of the `install`
directory), structured documents are association lists of JSON-like
values, and every function of the script becomes a pure Lean function
carrying the same name.
-/

namespace SetupVscode

/-- Join of `pathlib.Path` with a relative component, as in `a / b`. -/
def joinPath (a b : String) : String := a ++ "/" ++ b

/-- Filesystem state visible to discovery: which path strings name
existing directories, and the enumeration order in which
`install_dir.iterdir()` yields the names of the entries of the
workspace `install` directory. -/
structure FS where
  isDir : String → Bool
  installEntries : List String

/-- Literal run of 29 spaces kept by the two f-string line continuations
inside the `base_ros_path` literal of the script (lines 58-62). -/
def sp29 : String := "                             "

/-- Literal run of 34 spaces kept by the first line continuation inside
the `dist_packages_path` literal (line 70). -/
def sp34 : String := "                                  "

/-- Literal run of 36 spaces kept by the second line continuation inside
the `dist_packages_path` literal (line 71). -/
def sp36 : String := "                                    "

/-- Literal run of 12 spaces kept by the line continuation inside the
second entry of `possible_paths` (line 106). -/
def sp12 : String := "            "

/-- Embedding of `get_python_version_string`: the string
`pythonX.Y` built from `sys.version_info.major` and `minor`. -/
def get_python_version_string (major minor : Nat) : String :=
  "python" ++ toString major ++ "." ++ toString minor

/-- Embedding of the `base_ros_path` candidate string.  The f-string
line continuations keep the indentation of the continued lines, so the
literal contains two runs of 29 spaces and a stray right bracket. -/
def base_ros_path (ros_distro : String) (major minor : Nat) : String :=
  "/opt/ros/" ++ ros_distro ++ "/lib/python" ++ sp29 ++ toString major ++ "."
    ++ toString minor ++ "]" ++ sp29 ++ "/site-packages"

/-- Embedding of the `dist_packages_path` candidate string, with the
runs of 34 and 36 spaces kept by its line continuations. -/
def dist_packages_path (ros_distro : String) (major minor : Nat) : String :=
  "/opt/ros/" ++ ros_distro ++ "/lib/python" ++ sp34 ++ toString major ++ "."
    ++ sp36 ++ toString minor ++ "/dist-packages"

/-- Embedding of the `system_site_packages` candidate string.  In the
source the text before the replacement field is `/opt/ros/\`, an invalid
escape that Python keeps as a literal backslash. -/
def system_site_packages (ros_distro python_version : String) : String :=
  "/opt/ros/\\" ++ ros_distro ++ "/lib/" ++ python_version ++ "/site-packages"

/-- The three toolchain candidate strings, in the order the script
probes them: base site-packages, dist-packages, versioned
site-packages. -/
def ros_candidates (ros_distro python_version : String) (major minor : Nat) :
    List String :=
  [base_ros_path ros_distro major minor,
   dist_packages_path ros_distro major minor,
   system_site_packages ros_distro python_version]

/-- Embedding of the toolchain block of `find_paths_and_packages`
(lines 56-85): when `ros_distro` is non-empty, each of the three
candidates is appended, in order, exactly when it is a directory;
otherwise the block only prints a warning. -/
def ros_paths (ros_distro python_version : String) (major minor : Nat)
    (fs : FS) : List String :=
  if ros_distro = "" then []
  else
    (if fs.isDir (base_ros_path ros_distro major minor) then
      [base_ros_path ros_distro major minor] else []) ++
    (if fs.isDir (dist_packages_path ros_distro major minor) then
      [dist_packages_path ros_distro major minor] else []) ++
    (if fs.isDir (system_site_packages ros_distro python_version) then
      [system_site_packages ros_distro python_version] else [])

/-- Embedding of the `possible_paths` list built for one package
directory (lines 102-108). -/
def possible_paths (package_dir python_version : String) (major minor : Nat) :
    List String :=
  [joinPath package_dir ("lib/" ++ python_version ++ "/site-packages"),
   joinPath package_dir ("lib/python" ++ sp12 ++ toString major ++ "."
     ++ toString minor ++ "/site-packages"),
   joinPath package_dir "lib"]

/-- Embedding of the loop over `install_dir.iterdir()` (lines 94-113):
for each entry that is a directory, its name is recorded as a local
package and each existing entry of `possible_paths` is appended. -/
def local_scan (install_dir python_version : String) (major minor : Nat)
    (fs : FS) : List String → List String × List String
  | [] => ([], [])
  | name :: rest =>
    let package_dir := joinPath install_dir name
    let tail := local_scan install_dir python_version major minor fs rest
    if fs.isDir package_dir then
      ((possible_paths package_dir python_version major minor).filter fs.isDir
        ++ tail.1,
       name :: tail.2)
    else tail

/-- Embedding of the `PYTHONPATH` block (lines 116-121): when the
variable is non-empty it is split on colons and each non-empty entry
that is a directory is appended. -/
def env_paths (python_path_env : String) (fs : FS) : List String :=
  if python_path_env = "" then []
  else (python_path_env.splitOn ":").filter
    (fun p => (p != "") && fs.isDir p)

/-- Embedding of the seen-set loop that de-duplicates `python_paths`
while preserving order (lines 123-129); `seen` is the set of already
emitted strings. -/
def dedupGo (seen : List String) : List String → List String
  | [] => []
  | x :: xs =>
    if x ∈ seen then dedupGo seen xs
    else x :: dedupGo (x :: seen) xs

/-- De-duplication keeping the first occurrence of each string, the
loop of lines 123-129 started with an empty seen set. -/
def dedupFirst (l : List String) : List String := dedupGo [] l

/-- Ascending sort on strings, modelling the `sorted` builtin (the
elements sorted are pairwise distinct, so any correct sort yields the
same list). -/
def sortStrings (l : List String) : List String :=
  l.insertionSort (· ≤ ·)

/-- The full accumulated candidate sequence of `find_paths_and_packages`
before de-duplication: toolchain paths, then local workspace paths, then
`PYTHONPATH` entries. -/
def raw_python_paths (workspace_root python_version ros_distro : String)
    (major minor : Nat) (fs : FS) (python_path_env : String) : List String :=
  ros_paths ros_distro python_version major minor fs
    ++ (local_scan (joinPath workspace_root "install") python_version major
          minor fs fs.installEntries).1
    ++ env_paths python_path_env fs

/-- Embedding of `find_paths_and_packages` (lines 50-141).  When
`workspace_root/install` is not a directory, two empty lists are
returned immediately, discarding any toolchain paths already found;
otherwise the accumulated paths are de-duplicated preserving first-seen
order and the package names are de-duplicated and sorted. -/
def find_paths_and_packages (workspace_root python_version ros_distro : String)
    (major minor : Nat) (fs : FS) (python_path_env : String) :
    List String × List String :=
  let install_dir := joinPath workspace_root "install"
  if fs.isDir install_dir then
    (dedupFirst (raw_python_paths workspace_root python_version ros_distro
        major minor fs python_path_env),
     sortStrings (dedupFirst
       (local_scan install_dir python_version major minor fs
          fs.installEntries).2))
  else ([], [])

/-- Structured values of the two configuration documents: the JSON
values of `settings.json` and the TOML values of `pyproject.toml` share
this shape (numeric values are modelled as integers; no claim depends
on numeric contents). -/
inductive JVal where
  | jnull : JVal
  | jbool : Bool → JVal
  | jnum : Int → JVal
  | jstr : String → JVal
  | jarr : List JVal → JVal
  | jobj : List (String × JVal) → JVal

/-- A parsed document or table: an insertion-ordered dictionary from
string keys to values, as produced by `json.load` and `toml.load`. -/
abbrev Doc := List (String × JVal)

/-- Dictionary lookup, `d[k]` or `d.get(k)`: the value at the first
matching key. -/
def getKey : Doc → String → Option JVal
  | [], _ => none
  | (k, v) :: rest, key => if k = key then some v else getKey rest key

/-- Dictionary update `d[k] = v` with Python dict semantics: an existing
key keeps its position and gets the new value, a new key is appended at
the end. -/
def setKey : Doc → String → JVal → Doc
  | [], key, v => [(key, v)]
  | (k, w) :: rest, key, v =>
    if k = key then (k, v) :: rest else (k, w) :: setKey rest key v

/-- The six keys owned by `update_vscode_settings` (lines 159-169). -/
def ownedKeys : List String :=
  ["python.defaultInterpreterPath",
   "python.analysis.extraPaths",
   "python.autoComplete.extraPaths",
   "python.analysis.typeCheckingMode",
   "python.analysis.diagnosticMode",
   "cmake.configureOnOpen"]

/-- Embedding of the six assignments of `update_vscode_settings`
(lines 159-169), applied to the parsed settings document. -/
def set_settings_keys (settings_data : Doc) (python_paths : List String)
    (interpreter_path : String) : Doc :=
  setKey
    (setKey
      (setKey
        (setKey
          (setKey
            (setKey settings_data
              "python.defaultInterpreterPath" (.jstr interpreter_path))
            "python.analysis.extraPaths" (.jarr (python_paths.map .jstr)))
          "python.autoComplete.extraPaths" (.jarr (python_paths.map .jstr)))
        "python.analysis.typeCheckingMode" (.jstr "basic"))
      "python.analysis.diagnosticMode" (.jstr "openFilesOnly"))
    "cmake.configureOnOpen" (.jbool false)

/-- Outcome of opening and reading the settings file (lines 150-157):
the file may be absent, open or read may raise an OS-level error, the
content may fail to parse as JSON, or a document is parsed. -/
inductive SettingsRead where
  | absent : SettingsRead
  | osError : SettingsRead
  | parseError : SettingsRead
  | parsed : Doc → SettingsRead

/-- The settings document the writer starts from: the parsed document
when parsing succeeded, otherwise the empty document (absent file, or
the `json.JSONDecodeError` handler of line 155). -/
def settings_data_of : SettingsRead → Doc
  | .parsed d => d
  | _ => []

/-- Embedding of `update_vscode_settings` (lines 144-177).  The `try`
block around the read catches only `json.JSONDecodeError`, so an
OS-level error while opening or reading propagates and is modelled by
`Except.error`; every other outcome produces the merged document that is
written back. -/
def update_vscode_settings (read : SettingsRead) (python_paths : List String)
    (interpreter_path : String) : Except Unit Doc :=
  match read with
  | .osError => .error ()
  | r => .ok (set_settings_keys (settings_data_of r) python_paths
      interpreter_path)

/-- Conversion of a stored TOML value to a list of strings, as needed by
the list concatenation and `sorted` call of line 205: a non-list value
or a non-string element makes that line raise, which the `except`
handler of line 216 turns into an aborted, non-writing run. -/
def asStringList : JVal → Option (List String)
  | .jarr xs => asStringListAux xs
  | _ => none
where
  /-- Elementwise extraction of the strings of an array value. -/
  asStringListAux : List JVal → Option (List String)
  | [] => some []
  | .jstr s :: rest => (asStringListAux rest).map (s :: ·)
  | _ :: _ => none

/-- Navigation of `setdefault` (lines 195-198) at one level: a missing
key denotes a fresh empty table, an existing table is entered, and a
non-table value makes the subsequent attribute access raise (modelled as
`none`, caught by the handler of line 216). -/
def getTable : Doc → String → Option Doc
  | d, k =>
    match getKey d k with
    | none => some []
    | some (.jobj o) => some o
    | some _ => none

/-- Embedding of line 205: the union of the stored known-first-party
list and the discovered local packages, de-duplicated and sorted
ascending. -/
def updated_list (known_first_party local_packages : List String) :
    List String :=
  sortStrings (dedupFirst (known_first_party ++ local_packages))

/-- Reading of the stored known-first-party list inside a table
(line 201): an absent key defaults to the empty list, a present value
must be a list of strings for line 205 not to raise. -/
def known_first_party_of (isort : Doc) : Option (List String) :=
  match getKey isort "known-first-party" with
  | none => some []
  | some v => asStringList v

/-- Embedding of the read half of `update_pyproject_toml` (lines
195-201): navigate `tool.ruff.lint.isort` and read
`known-first-party`, defaulting to the empty list when absent. -/
def read_known_first_party (toml_data : Doc) : Option (List String) :=
  match getTable toml_data "tool" with
  | none => none
  | some tool =>
    match getTable tool "ruff" with
    | none => none
    | some ruff =>
      match getTable ruff "lint" with
      | none => none
      | some lint =>
        match getTable lint "isort" with
        | none => none
        | some isort => known_first_party_of isort

/-- Embedding of the document transformation of `update_pyproject_toml`
(lines 189-212): navigate and create the nested tables, merge the
known-first-party list, and rebuild the document.  `none` models an
exception caught by the handler of line 216, in which case nothing is
written. -/
def update_pyproject_toml (toml_data : Doc) (local_packages : List String) :
    Option Doc :=
  match getTable toml_data "tool" with
  | none => none
  | some tool =>
    match getTable tool "ruff" with
    | none => none
    | some ruff =>
      match getTable ruff "lint" with
      | none => none
      | some lint =>
        match getTable lint "isort" with
        | none => none
        | some isort =>
          match known_first_party_of isort with
          | none => none
          | some known_first_party =>
            some (setKey toml_data "tool" (.jobj
              (setKey tool "ruff" (.jobj
                (setKey ruff "lint" (.jobj
                  (setKey lint "isort" (.jobj
                    (setKey isort "known-first-party"
                      (.jarr ((updated_list known_first_party
                        local_packages).map .jstr)))))))))))

/-- File-level behaviour of `update_pyproject_toml` (lines 180-217):
when `pyproject.toml` does not exist the function logs an error and
returns without creating a file; when the transformation raises, the
caught exception leaves the file unchanged; otherwise the transformed
document is written back. -/
def run_pyproject_step (file : Option Doc) (local_packages : List String) :
    Option Doc :=
  match file with
  | none => none
  | some d =>
    match update_pyproject_toml d local_packages with
    | some d2 => some d2
    | none => some d

/-- State of the two output files when `main` starts. -/
structure MainState where
  settingsRead : SettingsRead
  pyproject : Option Doc

/-- Observable outcome of a completed run of `main`: the exit status,
the settings document written (if the settings step ran), and the state
of `pyproject.toml` afterwards. -/
structure MainResult where
  exitCode : Nat
  settingsWritten : Option Doc
  pyprojectAfter : Option Doc

/-- State of `pyproject.toml` at the end of `main` (lines 263-264): the
lint-config step runs only when local packages were found. -/
def main_pyproject_after (pyproject : Option Doc)
    (local_packages : List String) : Option Doc :=
  if local_packages = [] then pyproject
  else run_pyproject_step pyproject local_packages

/-- Embedding of `main` (lines 220-266).  Exit status 1 when the
distribution argument is missing or when discovery returns two empty
collections; otherwise the settings writer runs when search paths were
found (an uncaught OS-level read error aborts the run, modelled by
`Except.error`), the lint-config step runs when local packages were
found, and the run ends with exit status 0. -/
def run_main (argv : List String) (workspace_root : String)
    (major minor : Nat) (fs : FS) (python_path_env interpreter_path : String)
    (st : MainState) : Except Unit MainResult :=
  if argv.length < 2 then
    .ok ⟨1, none, st.pyproject⟩
  else
    if (find_paths_and_packages workspace_root
          (get_python_version_string major minor) (argv.getD 1 "") major
          minor fs python_path_env).1 = []
        ∧ (find_paths_and_packages workspace_root
          (get_python_version_string major minor) (argv.getD 1 "") major
          minor fs python_path_env).2 = [] then
      .ok ⟨1, none, st.pyproject⟩
    else
      if (find_paths_and_packages workspace_root
          (get_python_version_string major minor) (argv.getD 1 "") major
          minor fs python_path_env).1 = [] then
        .ok ⟨0, none, main_pyproject_after st.pyproject
          (find_paths_and_packages workspace_root
            (get_python_version_string major minor) (argv.getD 1 "") major
            minor fs python_path_env).2⟩
      else
        match update_vscode_settings st.settingsRead
            (find_paths_and_packages workspace_root
              (get_python_version_string major minor) (argv.getD 1 "") major
              minor fs python_path_env).1 interpreter_path with
        | .error e => .error e
        | .ok d =>
          .ok ⟨0, some d, main_pyproject_after st.pyproject
            (find_paths_and_packages workspace_root
              (get_python_version_string major minor) (argv.getD 1 "") major
              minor fs python_path_env).2⟩

/-- Observer for stated properties: the value reached by following the
keys `tool`, `ruff`, `lint`, `isort`, `known-first-party` through a
document whose intermediate values are tables. -/
def lookup_known_first_party (toml_data : Doc) : Option JVal :=
  match getKey toml_data "tool" with
  | some (.jobj tool) =>
    match getKey tool "ruff" with
    | some (.jobj ruff) =>
      match getKey ruff "lint" with
      | some (.jobj lint) =>
        match getKey lint "isort" with
        | some (.jobj isort) => getKey isort "known-first-party"
        | _ => none
      | _ => none
    | _ => none
  | _ => none

/-! Concrete sample inputs, used to instantiate the theorems below at
closed values. -/

/-- Sample filesystem: only the workspace `install` directory exists,
and it is empty. -/
def fsInstallOnly : FS := ⟨fun s => s == joinPath "/ws" "install", []⟩

/-- Sample filesystem: the `install` directory exists and the base
toolchain candidate for distribution `kilted` under Python 3.12 is a
directory. -/
def fsWithBase : FS :=
  ⟨fun s => s == joinPath "/ws" "install"
    || s == base_ros_path "kilted" 3 12, []⟩

/-- Sample filesystem: `install` contains the package directories `b`
and `a`, enumerated in that order. -/
def fsTwoPkgs : FS :=
  ⟨fun s => s == joinPath "/ws" "install"
    || s == joinPath (joinPath "/ws" "install") "a"
    || s == joinPath (joinPath "/ws" "install") "b", ["b", "a"]⟩

/-- Sample filesystem identical to `fsTwoPkgs` except that the entries
are enumerated in the opposite order. -/
def fsTwoPkgsPerm : FS := ⟨fsTwoPkgs.isDir, ["a", "b"]⟩

/-- Sample filesystem: `install` does not exist, while the base
toolchain candidate for `kilted` under Python 3.12 does. -/
def fsNoInstall : FS := ⟨fun s => s == base_ros_path "kilted" 3 12, []⟩

/-- Sample filesystem: `install` contains one package directory `a`
whose bare `lib` subdirectory exists. -/
def fsPkgLib : FS :=
  ⟨fun s => s == joinPath "/ws" "install"
    || s == joinPath (joinPath "/ws" "install") "a"
    || s == joinPath (joinPath (joinPath "/ws" "install") "a") "lib",
   ["a"]⟩

/-- Sample pyproject document with one manually added known-first-party
entry. -/
def samplePyproject : Doc :=
  [("tool", .jobj [("ruff", .jobj [("lint", .jobj [("isort", .jobj
    [("known-first-party", .jarr [.jstr "foo"])])])])])]

/-! Helper lemmas on the de-duplication loop. -/

theorem mem_dedupGo {a : String} (l : List String) :
    ∀ seen, a ∈ dedupGo seen l ↔ (a ∈ l ∧ a ∉ seen) := by
  induction l with
  | nil => intro seen; simp [dedupGo]
  | cons x xs ih =>
    intro seen
    by_cases hx : x ∈ seen
    · rw [dedupGo, if_pos hx, ih]
      simp only [List.mem_cons]
      constructor
      · rintro ⟨hm, hs⟩; exact ⟨Or.inr hm, hs⟩
      · rintro ⟨hax, hs⟩
        rcases hax with rfl | hm
        · exact absurd hx hs
        · exact ⟨hm, hs⟩
    · rw [dedupGo, if_neg hx]
      simp only [List.mem_cons, ih]
      constructor
      · rintro (rfl | ⟨hm, hs⟩)
        · exact ⟨Or.inl rfl, hx⟩
        · exact ⟨Or.inr hm, fun hc => hs (Or.inr hc)⟩
      · rintro ⟨hax, hs⟩
        rcases hax with rfl | hm
        · exact Or.inl rfl
        · by_cases hax2 : a = x
          · exact Or.inl hax2
          · exact Or.inr ⟨hm, fun hc => hc.elim hax2 hs⟩

theorem nodup_dedupGo (l : List String) :
    ∀ seen, (dedupGo seen l).Nodup := by
  induction l with
  | nil => intro seen; simp [dedupGo]
  | cons x xs ih =>
    intro seen
    by_cases hx : x ∈ seen
    · simpa [dedupGo, hx] using ih seen
    · simp only [dedupGo, if_neg hx]
      refine List.nodup_cons.2 ⟨fun hc => ?_, ih _⟩
      exact ((mem_dedupGo xs _).1 hc).2 (List.mem_cons_self _ _)

theorem dedupGo_sublist (l : List String) :
    ∀ seen, List.Sublist (dedupGo seen l) l := by
  induction l with
  | nil => intro seen; simp [dedupGo]
  | cons x xs ih =>
    intro seen
    by_cases hx : x ∈ seen
    · simpa [dedupGo, hx] using (ih seen).cons x
    · simpa [dedupGo, hx] using (ih (x :: seen)).cons₂ x

theorem dedupGo_congr_seen (l : List String) :
    ∀ seen seen2, (∀ a, a ∈ seen ↔ a ∈ seen2) →
      dedupGo seen l = dedupGo seen2 l := by
  induction l with
  | nil => intro seen seen2 _; rfl
  | cons x xs ih =>
    intro seen seen2 h
    by_cases hx : x ∈ seen
    · simp only [dedupGo, if_pos hx, if_pos ((h x).1 hx)]
      exact ih _ _ h
    · have hx2 : x ∉ seen2 := fun hc => hx ((h x).2 hc)
      simp only [dedupGo, if_neg hx, if_neg hx2]
      refine congrArg (x :: ·) (ih _ _ fun a => ?_)
      simp only [List.mem_cons]
      exact or_congr Iff.rfl (h a)

theorem dedupGo_cons_seen (x : String) (l : List String) :
    ∀ seen, dedupGo (x :: seen) l
      = dedupGo seen (l.filter (fun y => y != x)) := by
  induction l with
  | nil => intro seen; rfl
  | cons y ys ih =>
    intro seen
    by_cases hyx : y = x
    · subst hyx
      simp only [dedupGo, List.mem_cons, true_or, if_true, List.filter_cons,
        bne_self_eq_false, Bool.false_eq_true, if_false, ih]
    · have hf : (y != x) = true := bne_iff_ne.2 hyx
      by_cases hy : y ∈ seen
      · have : y ∈ x :: seen := List.mem_cons_of_mem _ hy
        simp only [dedupGo, if_pos this, List.filter_cons, hf, if_true,
          dedupGo, if_pos hy, ih]
      · have hyxs : y ∉ x :: seen := by
          simp only [List.mem_cons]
          rintro (rfl | hc)
          · exact hyx rfl
          · exact hy hc
        simp only [dedupGo, if_neg hyxs, List.filter_cons, hf, if_true,
          dedupGo, if_neg hy]
        refine congrArg (y :: ·) ?_
        rw [dedupGo_congr_seen ys (y :: x :: seen) (x :: y :: seen)
          (by intro a; simp [List.mem_cons]; tauto), ih (y :: seen)]

theorem dedupFirst_cons (x : String) (xs : List String) :
    dedupFirst (x :: xs) = x :: dedupFirst (xs.filter (fun y => y != x)) := by
  show dedupGo [] (x :: xs) = _
  simp only [dedupGo, List.not_mem_nil, if_neg (List.not_mem_nil x)]
  rw [dedupGo_cons_seen]
  rfl

theorem mem_dedupFirst {a : String} {l : List String} :
    a ∈ dedupFirst l ↔ a ∈ l := by
  simpa using mem_dedupGo l []

theorem nodup_dedupFirst (l : List String) : (dedupFirst l).Nodup :=
  nodup_dedupGo l []

theorem dedupFirst_sublist (l : List String) :
    List.Sublist (dedupFirst l) l :=
  dedupGo_sublist l []

/-! Helper lemmas on the sort. -/

theorem sorted_sortStrings (l : List String) :
    (sortStrings l).Sorted (· ≤ ·) :=
  List.sorted_insertionSort _ l

theorem perm_sortStrings (l : List String) : List.Perm (sortStrings l) l :=
  List.perm_insertionSort _ l

theorem mem_sortStrings {a : String} {l : List String} :
    a ∈ sortStrings l ↔ a ∈ l :=
  (perm_sortStrings l).mem_iff

theorem nodup_sortStrings {l : List String} (h : l.Nodup) :
    (sortStrings l).Nodup :=
  (perm_sortStrings l).nodup_iff.2 h

theorem eq_of_sorted_of_mem_iff {l1 l2 : List String}
    (s1 : l1.Sorted (· ≤ ·)) (s2 : l2.Sorted (· ≤ ·))
    (n1 : l1.Nodup) (n2 : l2.Nodup) (h : ∀ a, a ∈ l1 ↔ a ∈ l2) : l1 = l2 :=
  List.eq_of_perm_of_sorted ((List.perm_ext_iff_of_nodup n1 n2).mpr h) s1 s2

theorem sortStrings_dedupFirst_sorted (l : List String) :
    (sortStrings (dedupFirst l)).Sorted (· ≤ ·) :=
  sorted_sortStrings _

theorem sortStrings_dedupFirst_nodup (l : List String) :
    (sortStrings (dedupFirst l)).Nodup :=
  nodup_sortStrings (nodup_dedupFirst l)

theorem mem_sortStrings_dedupFirst {a : String} {l : List String} :
    a ∈ sortStrings (dedupFirst l) ↔ a ∈ l :=
  mem_sortStrings.trans mem_dedupFirst

theorem sortStrings_dedupFirst_eq_of_mem_iff {l1 l2 : List String}
    (h : ∀ a, a ∈ l1 ↔ a ∈ l2) :
    sortStrings (dedupFirst l1) = sortStrings (dedupFirst l2) :=
  eq_of_sorted_of_mem_iff (sortStrings_dedupFirst_sorted l1)
    (sortStrings_dedupFirst_sorted l2)
    (sortStrings_dedupFirst_nodup l1) (sortStrings_dedupFirst_nodup l2)
    (fun a => by
      rw [mem_sortStrings_dedupFirst, mem_sortStrings_dedupFirst, h a])

/-! Helper lemmas on dictionary lookup and update. -/

theorem getKey_setKey_same (d : Doc) (k : String) (v : JVal) :
    getKey (setKey d k v) k = some v := by
  induction d with
  | nil => simp [setKey, getKey]
  | cons p rest ih =>
    by_cases h : p.1 = k
    · simp [setKey, getKey, h]
    · simp [setKey, getKey, h, ih]

theorem getKey_setKey_ne (d : Doc) {k k2 : String} (h : k2 ≠ k) (v : JVal) :
    getKey (setKey d k v) k2 = getKey d k2 := by
  induction d with
  | nil => simp [setKey, getKey, Ne.symm h]
  | cons p rest ih =>
    by_cases hp : p.1 = k
    · simp [setKey, getKey, hp, Ne.symm h]
    · simp [setKey, getKey, hp, ih]

theorem setKey_setKey_same (d : Doc) (k : String) (v w : JVal) :
    setKey (setKey d k v) k w = setKey d k w := by
  induction d with
  | nil => simp [setKey]
  | cons p rest ih =>
    by_cases hp : p.1 = k
    · simp [setKey, hp]
    · simp [setKey, hp, ih]

theorem setKey_eq_of_getKey_eq {d : Doc} {k : String} {v : JVal}
    (h : getKey d k = some v) : setKey d k v = d := by
  induction d with
  | nil => simp [getKey] at h
  | cons p rest ih =>
    by_cases hp : p.1 = k
    · rw [getKey] at h
      rw [if_pos hp] at h
      cases h
      cases p with
      | mk k1 v1 =>
        simp only at hp
        subst hp
        simp [setKey]
    · rw [getKey] at h
      rw [if_neg hp] at h
      simp [setKey, hp, ih h]

/-! Helper lemmas on the discovery component. -/

theorem ros_paths_eq_filter {ros_distro : String} (python_version : String)
    (major minor : Nat) (fs : FS) (h : ros_distro ≠ "") :
    ros_paths ros_distro python_version major minor fs
      = (ros_candidates ros_distro python_version major minor).filter
          fs.isDir := by
  rw [ros_paths, if_neg h, ros_candidates]
  by_cases h1 : fs.isDir (base_ros_path ros_distro major minor) <;>
    by_cases h2 : fs.isDir (dist_packages_path ros_distro major minor) <;>
      by_cases h3 : fs.isDir (system_site_packages ros_distro
        python_version) <;>
        simp [List.filter, h1, h2, h3]

theorem mem_ros_paths_isDir {p : String} {ros_distro python_version : String}
    {major minor : Nat} {fs : FS}
    (h : p ∈ ros_paths ros_distro python_version major minor fs) :
    fs.isDir p = true := by
  rw [ros_paths] at h
  by_cases hd : ros_distro = ""
  · rw [if_pos hd] at h; cases h
  · rw [if_neg hd] at h
    rcases List.mem_append.1 h with h1 | h1
    · rcases List.mem_append.1 h1 with h2 | h2
      · by_cases hb : fs.isDir (base_ros_path ros_distro major minor)
        · rw [if_pos hb] at h2
          rcases List.mem_singleton.1 h2 with rfl
          exact hb
        · rw [if_neg hb] at h2; cases h2
      · by_cases hb : fs.isDir (dist_packages_path ros_distro major minor)
        · rw [if_pos hb] at h2
          rcases List.mem_singleton.1 h2 with rfl
          exact hb
        · rw [if_neg hb] at h2; cases h2
    · by_cases hb : fs.isDir (system_site_packages ros_distro python_version)
      · rw [if_pos hb] at h1
        rcases List.mem_singleton.1 h1 with rfl
        exact hb
      · rw [if_neg hb] at h1; cases h1

theorem local_scan_snd (install_dir python_version : String)
    (major minor : Nat) (fs : FS) : ∀ entries : List String,
    (local_scan install_dir python_version major minor fs entries).2
      = entries.filter (fun n => fs.isDir (joinPath install_dir n)) := by
  intro entries
  induction entries with
  | nil => rfl
  | cons name rest ih =>
    by_cases h : fs.isDir (joinPath install_dir name)
    · simp [local_scan, h, ih]
    · simp [local_scan, h, ih]

theorem local_scan_fst_isDir {install_dir python_version : String}
    {major minor : Nat} {fs : FS} : ∀ {entries : List String} {p : String},
    p ∈ (local_scan install_dir python_version major minor fs entries).1 →
      fs.isDir p = true := by
  intro entries
  induction entries with
  | nil => intro p h; cases h
  | cons name rest ih =>
    intro p h
    by_cases hd : fs.isDir (joinPath install_dir name)
    · rw [local_scan] at h
      simp only [if_pos hd] at h
      rcases List.mem_append.1 h with h1 | h1
      · exact List.of_mem_filter h1
      · exact ih h1
    · rw [local_scan] at h
      simp only [if_neg hd] at h
      exact ih h

theorem mem_env_paths_isDir {p python_path_env : String} {fs : FS}
    (h : p ∈ env_paths python_path_env fs) : fs.isDir p = true := by
  rw [env_paths] at h
  by_cases he : python_path_env = ""
  · rw [if_pos he] at h; cases h
  · rw [if_neg he] at h
    have := List.of_mem_filter h
    exact (Bool.and_eq_true_iff.1 this).2

theorem mem_raw_python_paths_isDir {p : String}
    {workspace_root python_version ros_distro : String} {major minor : Nat}
    {fs : FS} {python_path_env : String}
    (h : p ∈ raw_python_paths workspace_root python_version ros_distro major
      minor fs python_path_env) : fs.isDir p = true := by
  rw [raw_python_paths] at h
  rcases List.mem_append.1 h with h1 | h1
  · rcases List.mem_append.1 h1 with h2 | h2
    · exact mem_ros_paths_isDir h2
    · exact local_scan_fst_isDir h2
  · exact mem_env_paths_isDir h1

theorem find_paths_and_packages_of_isDir
    {workspace_root python_version ros_distro : String} {major minor : Nat}
    {fs : FS} {python_path_env : String}
    (h : fs.isDir (joinPath workspace_root "install") = true) :
    find_paths_and_packages workspace_root python_version ros_distro major
        minor fs python_path_env
      = (dedupFirst (raw_python_paths workspace_root python_version ros_distro
            major minor fs python_path_env),
         sortStrings (dedupFirst (fs.installEntries.filter
           (fun n => fs.isDir
             (joinPath (joinPath workspace_root "install") n))))) := by
  rw [find_paths_and_packages]
  simp only [h, if_true, local_scan_snd]

theorem find_paths_and_packages_of_not_isDir
    {workspace_root python_version ros_distro : String} {major minor : Nat}
    {fs : FS} {python_path_env : String}
    (h : fs.isDir (joinPath workspace_root "install") = false) :
    find_paths_and_packages workspace_root python_version ros_distro major
        minor fs python_path_env = ([], []) := by
  rw [find_paths_and_packages]
  simp only [h, Bool.false_eq_true, if_false]

/-! Helper lemmas on the settings writer. -/

theorem set_settings_keys_spec (d : Doc) (python_paths : List String)
    (interpreter_path : String) :
    getKey (set_settings_keys d python_paths interpreter_path)
        "python.defaultInterpreterPath" = some (.jstr interpreter_path)
    ∧ getKey (set_settings_keys d python_paths interpreter_path)
        "python.analysis.extraPaths" = some (.jarr (python_paths.map .jstr))
    ∧ getKey (set_settings_keys d python_paths interpreter_path)
        "python.autoComplete.extraPaths" = some (.jarr (python_paths.map .jstr))
    ∧ getKey (set_settings_keys d python_paths interpreter_path)
        "python.analysis.typeCheckingMode" = some (.jstr "basic")
    ∧ getKey (set_settings_keys d python_paths interpreter_path)
        "python.analysis.diagnosticMode" = some (.jstr "openFilesOnly")
    ∧ getKey (set_settings_keys d python_paths interpreter_path)
        "cmake.configureOnOpen" = some (.jbool false) := by
  refine ⟨?_, ?_, ?_, ?_, ?_, ?_⟩ <;>
    simp [set_settings_keys, getKey_setKey_same, getKey_setKey_ne]

theorem set_settings_keys_eq_self {d : Doc} {python_paths : List String}
    {interpreter_path : String}
    (h1 : getKey d "python.defaultInterpreterPath"
      = some (.jstr interpreter_path))
    (h2 : getKey d "python.analysis.extraPaths"
      = some (.jarr (python_paths.map .jstr)))
    (h3 : getKey d "python.autoComplete.extraPaths"
      = some (.jarr (python_paths.map .jstr)))
    (h4 : getKey d "python.analysis.typeCheckingMode" = some (.jstr "basic"))
    (h5 : getKey d "python.analysis.diagnosticMode"
      = some (.jstr "openFilesOnly"))
    (h6 : getKey d "cmake.configureOnOpen" = some (.jbool false)) :
    set_settings_keys d python_paths interpreter_path = d := by
  rw [set_settings_keys, setKey_eq_of_getKey_eq h1, setKey_eq_of_getKey_eq h2,
    setKey_eq_of_getKey_eq h3, setKey_eq_of_getKey_eq h4,
    setKey_eq_of_getKey_eq h5, setKey_eq_of_getKey_eq h6]

/-! Helper lemmas on the lint-config writer. -/

theorem asStringListAux_map_jstr (l : List String) :
    asStringList.asStringListAux (l.map .jstr) = some l := by
  induction l with
  | nil => rfl
  | cons s rest ih => simp [asStringList.asStringListAux, ih]

theorem asStringList_map_jstr (l : List String) :
    asStringList (.jarr (l.map .jstr)) = some l := by
  rw [asStringList, asStringListAux_map_jstr]

theorem getTable_setKey_same (d : Doc) (k : String) (t : Doc) :
    getTable (setKey d k (.jobj t)) k = some t := by
  simp only [getTable, getKey_setKey_same]

theorem known_first_party_of_setKey_same (isort : Doc) (l : List String) :
    known_first_party_of
        (setKey isort "known-first-party" (.jarr (l.map .jstr)))
      = some l := by
  simp only [known_first_party_of, getKey_setKey_same, asStringList_map_jstr]

theorem mem_updated_list {a : String} {e p : List String} :
    a ∈ updated_list e p ↔ a ∈ e ∨ a ∈ p := by
  rw [updated_list, mem_sortStrings_dedupFirst]
  exact List.mem_append

theorem updated_list_sorted (e p : List String) :
    (updated_list e p).Sorted (· ≤ ·) :=
  sortStrings_dedupFirst_sorted _

theorem updated_list_nodup (e p : List String) : (updated_list e p).Nodup :=
  sortStrings_dedupFirst_nodup _

theorem updated_list_idem (e p : List String) :
    updated_list (updated_list e p) p = updated_list e p :=
  eq_of_sorted_of_mem_iff (updated_list_sorted _ _) (updated_list_sorted _ _)
    (updated_list_nodup _ _) (updated_list_nodup _ _)
    (fun a => by simp only [mem_updated_list]; tauto)

theorem update_pyproject_toml_eq {toml_data : Doc} {tool ruff lint isort : Doc}
    {known : List String} (local_packages : List String)
    (h1 : getTable toml_data "tool" = some tool)
    (h2 : getTable tool "ruff" = some ruff)
    (h3 : getTable ruff "lint" = some lint)
    (h4 : getTable lint "isort" = some isort)
    (h5 : known_first_party_of isort = some known) :
    update_pyproject_toml toml_data local_packages
      = some (setKey toml_data "tool" (.jobj (setKey tool "ruff" (.jobj
          (setKey ruff "lint" (.jobj (setKey lint "isort" (.jobj
            (setKey isort "known-first-party"
              (.jarr ((updated_list known local_packages).map
                .jstr))))))))))) := by
  rw [update_pyproject_toml]
  simp only [h1, h2, h3, h4, h5]

theorem update_pyproject_toml_inv {toml_data d2 : Doc}
    {local_packages : List String}
    (h : update_pyproject_toml toml_data local_packages = some d2) :
    ∃ tool ruff lint isort known,
      getTable toml_data "tool" = some tool
      ∧ getTable tool "ruff" = some ruff
      ∧ getTable ruff "lint" = some lint
      ∧ getTable lint "isort" = some isort
      ∧ known_first_party_of isort = some known
      ∧ d2 = setKey toml_data "tool" (.jobj (setKey tool "ruff" (.jobj
          (setKey ruff "lint" (.jobj (setKey lint "isort" (.jobj
            (setKey isort "known-first-party"
              (.jarr ((updated_list known local_packages).map
                .jstr))))))))))  := by
  rw [update_pyproject_toml] at h
  split at h
  · cases h
  · rename_i tool h1
    split at h
    · cases h
    · rename_i ruff h2
      split at h
      · cases h
      · rename_i lint h3
        split at h
        · cases h
        · rename_i isort h4
          split at h
          · cases h
          · rename_i known h5
            cases h
            exact ⟨tool, ruff, lint, isort, known, h1, h2, h3, h4, h5, rfl⟩

/-! Helper lemmas on the embedded main and on idempotence. -/

theorem update_vscode_settings_ok {r : SettingsRead} (hr : r ≠ .osError)
    (python_paths : List String) (interpreter_path : String) :
    update_vscode_settings r python_paths interpreter_path
      = .ok (set_settings_keys (settings_data_of r) python_paths
          interpreter_path) := by
  cases r with
  | absent => rfl
  | osError => exact absurd rfl hr
  | parseError => rfl
  | parsed d => rfl

theorem run_main_ok (argv : List String) (workspace_root : String)
    (major minor : Nat) (fs : FS) (python_path_env interpreter_path : String)
    (st : MainState) (hlen : ¬ argv.length < 2)
    (h1 : (find_paths_and_packages workspace_root
        (get_python_version_string major minor) (argv.getD 1 "") major minor
        fs python_path_env).1 ≠ [])
    (hro : st.settingsRead ≠ .osError) :
    run_main argv workspace_root major minor fs python_path_env
        interpreter_path st
      = .ok ⟨0, some (set_settings_keys (settings_data_of st.settingsRead)
          (find_paths_and_packages workspace_root
            (get_python_version_string major minor) (argv.getD 1 "") major
            minor fs python_path_env).1 interpreter_path),
          main_pyproject_after st.pyproject
            (find_paths_and_packages workspace_root
              (get_python_version_string major minor) (argv.getD 1 "") major
              minor fs python_path_env).2⟩ := by
  rw [run_main, if_neg hlen, if_neg (fun hc => h1 hc.1), if_neg h1,
    update_vscode_settings_ok hro]

theorem run_main_os_error (argv : List String) (workspace_root : String)
    (major minor : Nat) (fs : FS) (python_path_env interpreter_path : String)
    (st : MainState) (hlen : ¬ argv.length < 2)
    (h1 : (find_paths_and_packages workspace_root
        (get_python_version_string major minor) (argv.getD 1 "") major minor
        fs python_path_env).1 ≠ [])
    (hro : st.settingsRead = .osError) :
    run_main argv workspace_root major minor fs python_path_env
        interpreter_path st = .error () := by
  rw [run_main, if_neg hlen, if_neg (fun hc => h1 hc.1), if_neg h1, hro]
  rfl

theorem set_settings_keys_idem (d : Doc) (python_paths : List String)
    (interpreter_path : String) :
    set_settings_keys (set_settings_keys d python_paths interpreter_path)
        python_paths interpreter_path
      = set_settings_keys d python_paths interpreter_path := by
  obtain ⟨g1, g2, g3, g4, g5, g6⟩ :=
    set_settings_keys_spec d python_paths interpreter_path
  exact set_settings_keys_eq_self g1 g2 g3 g4 g5 g6

theorem update_pyproject_toml_idem {toml_data d2 : Doc}
    {local_packages : List String}
    (h : update_pyproject_toml toml_data local_packages = some d2) :
    update_pyproject_toml d2 local_packages = some d2 := by
  obtain ⟨tool, ruff, lint, isort, known, h1, h2, h3, h4, h5, rfl⟩ :=
    update_pyproject_toml_inv h
  rw [update_pyproject_toml_eq local_packages
    (getTable_setKey_same _ _ _) (getTable_setKey_same _ _ _)
    (getTable_setKey_same _ _ _) (getTable_setKey_same _ _ _)
    (known_first_party_of_setKey_same _ _)]
  rw [updated_list_idem, setKey_setKey_same, setKey_setKey_same,
    setKey_setKey_same, setKey_setKey_same, setKey_setKey_same]

theorem run_pyproject_step_idem (q : Doc) (local_packages : List String) :
    run_pyproject_step (run_pyproject_step (some q) local_packages)
        local_packages
      = run_pyproject_step (some q) local_packages := by
  cases hu : update_pyproject_toml q local_packages with
  | none => simp only [run_pyproject_step, hu]
  | some p =>
    simp only [run_pyproject_step, hu]
    rw [update_pyproject_toml_idem hu]

theorem main_pyproject_after_idem (q : Doc) (local_packages : List String) :
    main_pyproject_after
        (main_pyproject_after (some q) local_packages) local_packages
      = main_pyproject_after (some q) local_packages := by
  by_cases h : local_packages = []
  · simp only [main_pyproject_after, if_pos h]
  · simp only [main_pyproject_after, if_neg h]
    exact run_pyproject_step_idem q local_packages

/-! Claim theorems. -/

/-- C1: for every non-empty distribution identifier, discovery builds
exactly the three toolchain candidate strings (base site-packages,
dist-packages variant, versioned site-packages variant) from the
identifier and the interpreter version tag, appending each to the
accumulated search paths exactly when it is a directory; and, provided
the workspace `install` directory exists, each candidate is in the
returned search-path list exactly when it is a directory. -/
theorem C1_toolchain_candidates
    (workspace_root python_version ros_distro : String) (major minor : Nat)
    (fs : FS) (python_path_env : String) (hd : ros_distro ≠ "") :
    ros_paths ros_distro python_version major minor fs
      = (ros_candidates ros_distro python_version major minor).filter fs.isDir
    ∧ (fs.isDir (joinPath workspace_root "install") = true →
        ∀ c ∈ ros_candidates ros_distro python_version major minor,
          (c ∈ (find_paths_and_packages workspace_root python_version
              ros_distro major minor fs python_path_env).1
            ↔ fs.isDir c = true)) := by
  refine ⟨ros_paths_eq_filter python_version major minor fs hd,
    fun hi c hc => ?_⟩
  rw [find_paths_and_packages_of_isDir hi]
  show c ∈ dedupFirst _ ↔ _
  rw [mem_dedupFirst]
  constructor
  · exact fun h => mem_raw_python_paths_isDir h
  · intro h
    rw [raw_python_paths]
    refine List.mem_append.2 (Or.inl (List.mem_append.2 (Or.inl ?_)))
    rw [ros_paths_eq_filter python_version major minor fs hd]
    exact List.mem_filter.2 ⟨hc, h⟩

/-- Witness for C1 at a concrete input: distribution `kilted`,
Python 3.12, a filesystem where `install` and the base candidate
exist. -/
theorem C1_toolchain_candidates_witness :
    ("kilted" : String) ≠ ""
    ∧ (ros_paths "kilted" "python3.12" 3 12 fsWithBase
        = (ros_candidates "kilted" "python3.12" 3 12).filter fsWithBase.isDir
      ∧ (fsWithBase.isDir (joinPath "/ws" "install") = true →
          ∀ c ∈ ros_candidates "kilted" "python3.12" 3 12,
            (c ∈ (find_paths_and_packages "/ws" "python3.12" "kilted" 3 12
                fsWithBase "").1
              ↔ fsWithBase.isDir c = true))) :=
  ⟨by decide,
   C1_toolchain_candidates "/ws" "python3.12" "kilted" 3 12 fsWithBase ""
     (by decide)⟩

/-- C2: when the workspace `install` directory exists, the
local-package output is the ascending sorted, duplicate-free list of
the names of its immediate subdirectories that are directories, and it
is unchanged under any permutation of the on-disk enumeration order,
for any distribution identifier, version tag and environment path
list. -/
theorem C2_local_packages_sorted_set
    (workspace_root python_version python_version2 ros_distro ros_distro2 :
      String) (major minor major2 minor2 : Nat) (fs fs2 : FS)
    (python_path_env python_path_env2 : String)
    (h : fs.isDir (joinPath workspace_root "install") = true)
    (hsame : fs2.isDir = fs.isDir)
    (hperm : List.Perm fs2.installEntries fs.installEntries) :
    (find_paths_and_packages workspace_root python_version ros_distro major
        minor fs python_path_env).2
      = sortStrings (dedupFirst (fs.installEntries.filter
          (fun n => fs.isDir (joinPath (joinPath workspace_root "install") n))))
    ∧ ((find_paths_and_packages workspace_root python_version ros_distro major
        minor fs python_path_env).2).Sorted (· ≤ ·)
    ∧ ((find_paths_and_packages workspace_root python_version ros_distro major
        minor fs python_path_env).2).Nodup
    ∧ (∀ n, n ∈ (find_paths_and_packages workspace_root python_version
          ros_distro major minor fs python_path_env).2
        ↔ (n ∈ fs.installEntries
            ∧ fs.isDir (joinPath (joinPath workspace_root "install") n)
              = true))
    ∧ (find_paths_and_packages workspace_root python_version2 ros_distro2
        major2 minor2 fs2 python_path_env2).2
      = (find_paths_and_packages workspace_root python_version ros_distro
          major minor fs python_path_env).2 := by
  have h2 : fs2.isDir (joinPath workspace_root "install") = true := by
    rw [hsame]; exact h
  have e1 : (find_paths_and_packages workspace_root python_version ros_distro
      major minor fs python_path_env).2
      = sortStrings (dedupFirst (fs.installEntries.filter
          (fun n => fs.isDir
            (joinPath (joinPath workspace_root "install") n)))) := by
    rw [find_paths_and_packages_of_isDir h]
  have e2 : (find_paths_and_packages workspace_root python_version2 ros_distro2
      major2 minor2 fs2 python_path_env2).2
      = sortStrings (dedupFirst (fs2.installEntries.filter
          (fun n => fs2.isDir
            (joinPath (joinPath workspace_root "install") n)))) := by
    rw [find_paths_and_packages_of_isDir h2]
  refine ⟨e1, ?_, ?_, ?_, ?_⟩
  · rw [e1]; exact sortStrings_dedupFirst_sorted _
  · rw [e1]; exact sortStrings_dedupFirst_nodup _
  · intro n
    rw [e1, mem_sortStrings_dedupFirst, List.mem_filter]
  · rw [e1, e2, hsame]
    refine sortStrings_dedupFirst_eq_of_mem_iff fun a => ?_
    exact (hperm.filter _).mem_iff

/-- Witness for C2 at a concrete input: an `install` directory holding
packages `b` and `a`, enumerated in the two possible orders. -/
theorem C2_local_packages_sorted_set_witness :
    fsTwoPkgs.isDir (joinPath "/ws" "install") = true
    ∧ fsTwoPkgsPerm.isDir = fsTwoPkgs.isDir
    ∧ List.Perm fsTwoPkgsPerm.installEntries fsTwoPkgs.installEntries
    ∧ ((find_paths_and_packages "/ws" "python3.12" "kilted" 3 12 fsTwoPkgs
          "").2
        = sortStrings (dedupFirst (fsTwoPkgs.installEntries.filter
            (fun n => fsTwoPkgs.isDir (joinPath (joinPath "/ws" "install") n))))
      ∧ ((find_paths_and_packages "/ws" "python3.12" "kilted" 3 12 fsTwoPkgs
          "").2).Sorted (· ≤ ·)
      ∧ ((find_paths_and_packages "/ws" "python3.12" "kilted" 3 12 fsTwoPkgs
          "").2).Nodup
      ∧ (∀ n, n ∈ (find_paths_and_packages "/ws" "python3.12" "kilted" 3 12
            fsTwoPkgs "").2
          ↔ (n ∈ fsTwoPkgs.installEntries
              ∧ fsTwoPkgs.isDir (joinPath (joinPath "/ws" "install") n)
                = true))
      ∧ (find_paths_and_packages "/ws" "python3.13" "" 3 13 fsTwoPkgsPerm
          "x").2
        = (find_paths_and_packages "/ws" "python3.12" "kilted" 3 12 fsTwoPkgs
            "").2) :=
  ⟨by decide, rfl, List.Perm.swap "b" "a" [],
   C2_local_packages_sorted_set "/ws" "python3.12" "python3.13" "kilted" ""
     3 12 3 13 fsTwoPkgs fsTwoPkgsPerm "" "x" (by decide) rfl
     (List.Perm.swap "b" "a" [])⟩

/-- C3: the returned search-path list is the order-preserving
de-duplication of the accumulated candidates: every element passed the
directory check, there are no duplicates, the list is a subsequence of
the accumulation order keeping each first occurrence, and candidates
accumulated in order A, B, A, C yield the list A, B, C. -/
theorem C3_search_path_invariants
    (workspace_root python_version ros_distro : String) (major minor : Nat)
    (fs : FS) (python_path_env : String) (A B C : String)
    (h : fs.isDir (joinPath workspace_root "install") = true)
    (hAB : A ≠ B) (hAC : A ≠ C) (hBC : B ≠ C) :
    (∀ p ∈ (find_paths_and_packages workspace_root python_version ros_distro
        major minor fs python_path_env).1, fs.isDir p = true)
    ∧ ((find_paths_and_packages workspace_root python_version ros_distro major
        minor fs python_path_env).1).Nodup
    ∧ (find_paths_and_packages workspace_root python_version ros_distro major
        minor fs python_path_env).1
      = dedupFirst (raw_python_paths workspace_root python_version ros_distro
          major minor fs python_path_env)
    ∧ List.Sublist
        (find_paths_and_packages workspace_root python_version ros_distro
          major minor fs python_path_env).1
        (raw_python_paths workspace_root python_version ros_distro major minor
          fs python_path_env)
    ∧ (∀ (x : String) (xs : List String),
        dedupFirst (x :: xs) = x :: dedupFirst (xs.filter (fun y => y != x)))
    ∧ dedupFirst [A, B, A, C] = [A, B, C] := by
  have e1 : (find_paths_and_packages workspace_root python_version ros_distro
      major minor fs python_path_env).1
      = dedupFirst (raw_python_paths workspace_root python_version ros_distro
          major minor fs python_path_env) := by
    rw [find_paths_and_packages_of_isDir h]
  refine ⟨?_, ?_, e1, ?_, dedupFirst_cons, ?_⟩
  · intro p hp
    rw [e1, mem_dedupFirst] at hp
    exact mem_raw_python_paths_isDir hp
  · rw [e1]; exact nodup_dedupFirst _
  · rw [e1]; exact dedupFirst_sublist _
  · simp [dedupFirst, dedupGo, hAB, hAC, hBC, Ne.symm hAB, Ne.symm hAC,
      Ne.symm hBC]

/-- Witness for C3 at a concrete input: empty `install` directory and
the three distinct candidate strings `a`, `b`, `c`. -/
theorem C3_search_path_invariants_witness :
    fsInstallOnly.isDir (joinPath "/ws" "install") = true
    ∧ ("a" : String) ≠ "b" ∧ ("a" : String) ≠ "c" ∧ ("b" : String) ≠ "c"
    ∧ ((∀ p ∈ (find_paths_and_packages "/ws" "python3.12" "kilted" 3 12
          fsInstallOnly "").1, fsInstallOnly.isDir p = true)
      ∧ ((find_paths_and_packages "/ws" "python3.12" "kilted" 3 12
          fsInstallOnly "").1).Nodup
      ∧ (find_paths_and_packages "/ws" "python3.12" "kilted" 3 12
          fsInstallOnly "").1
        = dedupFirst (raw_python_paths "/ws" "python3.12" "kilted" 3 12
            fsInstallOnly "")
      ∧ List.Sublist
          (find_paths_and_packages "/ws" "python3.12" "kilted" 3 12
            fsInstallOnly "").1
          (raw_python_paths "/ws" "python3.12" "kilted" 3 12 fsInstallOnly "")
      ∧ (∀ (x : String) (xs : List String),
          dedupFirst (x :: xs)
            = x :: dedupFirst (xs.filter (fun y => y != x)))
      ∧ dedupFirst ["a", "b", "a", "c"] = ["a", "b", "c"]) :=
  ⟨by decide, by decide, by decide, by decide,
   C3_search_path_invariants "/ws" "python3.12" "kilted" 3 12 fsInstallOnly
     "" "a" "b" "c" (by decide) (by decide) (by decide) (by decide)⟩

/-- C4: every key of the settings document outside the six owned keys
is bound to the same value after the settings writer as before it. -/
theorem C4_unowned_keys_preserved (d : Doc) (python_paths : List String)
    (interpreter_path : String) (k : String) (hk : k ∉ ownedKeys) :
    getKey (set_settings_keys d python_paths interpreter_path) k
      = getKey d k := by
  simp only [ownedKeys, List.mem_cons, List.not_mem_nil, or_false] at hk
  push_neg at hk
  obtain ⟨h1, h2, h3, h4, h5, h6⟩ := hk
  rw [set_settings_keys, getKey_setKey_ne _ h6, getKey_setKey_ne _ h5,
    getKey_setKey_ne _ h4, getKey_setKey_ne _ h3, getKey_setKey_ne _ h2,
    getKey_setKey_ne _ h1]

/-- Witness for C4 at a concrete input: an unrelated editor key keeps
its value through the writer. -/
theorem C4_unowned_keys_preserved_witness :
    ("editor.fontSize" : String) ∉ ownedKeys
    ∧ getKey (set_settings_keys [("editor.fontSize", .jnum 12)] ["/p"] "/py")
        "editor.fontSize"
      = getKey [("editor.fontSize", .jnum 12)] "editor.fontSize" :=
  ⟨by decide,
   C4_unowned_keys_preserved [("editor.fontSize", .jnum 12)] ["/p"] "/py"
     "editor.fontSize" (by decide)⟩

/-- C5: the lint-config writer stores under `known-first-party` exactly
the ascending sorted, duplicate-free union of the stored list and the
discovered local packages; a name in both appears exactly once. -/
theorem C5_known_first_party_union (toml_data d2 : Doc)
    (local_packages existing : List String) (foo : String)
    (hread : read_known_first_party toml_data = some existing)
    (hupd : update_pyproject_toml toml_data local_packages = some d2) :
    lookup_known_first_party d2
      = some (.jarr ((updated_list existing local_packages).map .jstr))
    ∧ (updated_list existing local_packages).Sorted (· ≤ ·)
    ∧ (updated_list existing local_packages).Nodup
    ∧ (∀ a, a ∈ updated_list existing local_packages
        ↔ (a ∈ existing ∨ a ∈ local_packages))
    ∧ (foo ∈ existing → foo ∈ local_packages →
        (updated_list existing local_packages).count foo = 1) := by
  obtain ⟨tool, ruff, lint, isort, known, h1, h2, h3, h4, h5, rfl⟩ :=
    update_pyproject_toml_inv hupd
  have hke : known = existing := by
    rw [read_known_first_party] at hread
    simp only [h1, h2, h3, h4, h5] at hread
    exact Option.some_injective _ hread
  subst hke
  refine ⟨?_, updated_list_sorted _ _, updated_list_nodup _ _,
    fun a => mem_updated_list, fun hf1 hf2 => ?_⟩
  · rw [lookup_known_first_party]
    simp only [getKey_setKey_same]
  · exact List.count_eq_one_of_mem (updated_list_nodup _ _)
      (mem_updated_list.2 (Or.inl hf1))

/-- Witness for C5 at a concrete input: the stored list already holds
`foo` and discovery also finds `foo`; the output holds one `foo`. -/
theorem C5_known_first_party_union_witness :
    read_known_first_party samplePyproject = some ["foo"]
    ∧ update_pyproject_toml samplePyproject ["foo"] = some samplePyproject
    ∧ (lookup_known_first_party samplePyproject
        = some (.jarr ((updated_list ["foo"] ["foo"]).map .jstr))
      ∧ (updated_list ["foo"] ["foo"]).Sorted (· ≤ ·)
      ∧ (updated_list ["foo"] ["foo"]).Nodup
      ∧ (∀ a, a ∈ updated_list ["foo"] ["foo"]
          ↔ (a ∈ (["foo"] : List String) ∨ a ∈ (["foo"] : List String)))
      ∧ (("foo" : String) ∈ (["foo"] : List String) →
          ("foo" : String) ∈ (["foo"] : List String) →
            (updated_list ["foo"] ["foo"]).count "foo" = 1)) :=
  ⟨rfl, rfl,
   C5_known_first_party_union samplePyproject samplePyproject ["foo"] ["foo"]
     "foo" rfl rfl⟩

/-- C6: with identical inputs, a second run of the tool starting from
the file states the first run produced writes exactly the same settings
document and leaves exactly the same lint-config document: the merge of
both writers is stable under repeated application. -/
theorem C6_second_run_identical (argv : List String)
    (workspace_root : String) (major minor : Nat) (fs : FS)
    (python_path_env interpreter_path : String) (st : MainState) (q : Doc)
    (hlen : ¬ argv.length < 2)
    (h1 : (find_paths_and_packages workspace_root
        (get_python_version_string major minor) (argv.getD 1 "") major minor
        fs python_path_env).1 ≠ [])
    (hro : st.settingsRead ≠ .osError)
    (hq : st.pyproject = some q) :
    run_main argv workspace_root major minor fs python_path_env
        interpreter_path st
      = .ok ⟨0, some (set_settings_keys (settings_data_of st.settingsRead)
          (find_paths_and_packages workspace_root
            (get_python_version_string major minor) (argv.getD 1 "") major
            minor fs python_path_env).1 interpreter_path),
          main_pyproject_after (some q)
            (find_paths_and_packages workspace_root
              (get_python_version_string major minor) (argv.getD 1 "") major
              minor fs python_path_env).2⟩
    ∧ run_main argv workspace_root major minor fs python_path_env
        interpreter_path
        ⟨.parsed (set_settings_keys (settings_data_of st.settingsRead)
            (find_paths_and_packages workspace_root
              (get_python_version_string major minor) (argv.getD 1 "") major
              minor fs python_path_env).1 interpreter_path),
         main_pyproject_after (some q)
           (find_paths_and_packages workspace_root
             (get_python_version_string major minor) (argv.getD 1 "") major
             minor fs python_path_env).2⟩
      = .ok ⟨0, some (set_settings_keys (settings_data_of st.settingsRead)
          (find_paths_and_packages workspace_root
            (get_python_version_string major minor) (argv.getD 1 "") major
            minor fs python_path_env).1 interpreter_path),
          main_pyproject_after (some q)
            (find_paths_and_packages workspace_root
              (get_python_version_string major minor) (argv.getD 1 "") major
              minor fs python_path_env).2⟩ := by
  constructor
  · rw [run_main_ok argv workspace_root major minor fs python_path_env
      interpreter_path st hlen h1 hro, hq]
  · rw [run_main_ok argv workspace_root major minor fs python_path_env
      interpreter_path _ hlen h1 (fun hc => SettingsRead.noConfusion hc)]
    show Except.ok (MainResult.mk 0
      (some (set_settings_keys (set_settings_keys _ _ _) _ _)) _) = _
    rw [set_settings_keys_idem, main_pyproject_after_idem]

/-- Witness for C6 at a concrete input: one search path from the
environment, no local packages, an existing pyproject document. -/
theorem C6_second_run_identical_witness :
    ¬ (["prog", "kilted"] : List String).length < 2
    ∧ (find_paths_and_packages "/ws" (get_python_version_string 3 12)
        ((["prog", "kilted"] : List String).getD 1 "") 3 12 fsPkgLib
        "").1 ≠ []
    ∧ (MainState.mk (.parsed []) (some samplePyproject)).settingsRead
      ≠ .osError
    ∧ (MainState.mk (.parsed []) (some samplePyproject)).pyproject
      = some samplePyproject
    ∧ (run_main ["prog", "kilted"] "/ws" 3 12 fsPkgLib "" "/py"
          (MainState.mk (.parsed []) (some samplePyproject))
        = .ok ⟨0, some (set_settings_keys
            (settings_data_of (MainState.mk (.parsed [])
              (some samplePyproject)).settingsRead)
            (find_paths_and_packages "/ws" (get_python_version_string 3 12)
              ((["prog", "kilted"] : List String).getD 1 "") 3 12 fsPkgLib
              "").1 "/py"),
            main_pyproject_after (some samplePyproject)
              (find_paths_and_packages "/ws" (get_python_version_string 3 12)
                ((["prog", "kilted"] : List String).getD 1 "") 3 12 fsPkgLib
                "").2⟩
      ∧ run_main ["prog", "kilted"] "/ws" 3 12 fsPkgLib "" "/py"
          ⟨.parsed (set_settings_keys
              (settings_data_of (MainState.mk (.parsed [])
                (some samplePyproject)).settingsRead)
              (find_paths_and_packages "/ws" (get_python_version_string 3 12)
                ((["prog", "kilted"] : List String).getD 1 "") 3 12 fsPkgLib
                "").1 "/py"),
           main_pyproject_after (some samplePyproject)
             (find_paths_and_packages "/ws" (get_python_version_string 3 12)
               ((["prog", "kilted"] : List String).getD 1 "") 3 12 fsPkgLib
               "").2⟩
        = .ok ⟨0, some (set_settings_keys
            (settings_data_of (MainState.mk (.parsed [])
              (some samplePyproject)).settingsRead)
            (find_paths_and_packages "/ws" (get_python_version_string 3 12)
              ((["prog", "kilted"] : List String).getD 1 "") 3 12 fsPkgLib
              "").1 "/py"),
            main_pyproject_after (some samplePyproject)
              (find_paths_and_packages "/ws" (get_python_version_string 3 12)
                ((["prog", "kilted"] : List String).getD 1 "") 3 12 fsPkgLib
                "").2⟩) :=
  ⟨by decide, by decide, fun hc => SettingsRead.noConfusion hc, rfl,
   C6_second_run_identical ["prog", "kilted"] "/ws" 3 12 fsPkgLib ""
     "/py" (MainState.mk (.parsed []) (some samplePyproject)) samplePyproject
     (by decide) (by decide) (fun hc => SettingsRead.noConfusion hc) rfl⟩

/-- C7: when the workspace `install` directory does not exist,
discovery returns two empty collections, discarding any toolchain path
already found, and the run completes without raising and exits with
status 1 because both collections are empty. -/
theorem C7_missing_install_exits_one (argv : List String)
    (workspace_root : String) (major minor : Nat) (fs : FS)
    (python_path_env interpreter_path : String) (st : MainState)
    (hlen : ¬ argv.length < 2)
    (h : fs.isDir (joinPath workspace_root "install") = false) :
    find_paths_and_packages workspace_root
        (get_python_version_string major minor) (argv.getD 1 "") major minor
        fs python_path_env = ([], [])
    ∧ run_main argv workspace_root major minor fs python_path_env
        interpreter_path st = .ok ⟨1, none, st.pyproject⟩ := by
  have hf : find_paths_and_packages workspace_root
      (get_python_version_string major minor) (argv.getD 1 "") major minor
      fs python_path_env = ([], []) :=
    find_paths_and_packages_of_not_isDir h
  refine ⟨hf, ?_⟩
  rw [run_main, if_neg hlen, if_pos ⟨by rw [hf], by rw [hf]⟩]

/-- Witness for C7 at a concrete input: `install` is missing while the
base toolchain candidate for `kilted` exists as a directory. -/
theorem C7_missing_install_exits_one_witness :
    ¬ (["prog", "kilted"] : List String).length < 2
    ∧ fsNoInstall.isDir (joinPath "/ws" "install") = false
    ∧ (find_paths_and_packages "/ws" (get_python_version_string 3 12)
        ((["prog", "kilted"] : List String).getD 1 "") 3 12 fsNoInstall ""
        = ([], [])
      ∧ run_main ["prog", "kilted"] "/ws" 3 12 fsNoInstall "" "/py"
          (MainState.mk .absent none)
        = .ok ⟨1, none, (MainState.mk .absent none).pyproject⟩) :=
  ⟨by decide, by decide,
   C7_missing_install_exits_one ["prog", "kilted"] "/ws" 3 12 fsNoInstall ""
     "/py" (MainState.mk .absent none) (by decide) (by decide)⟩

/-- C8: when `pyproject.toml` does not exist and at least one search
path was discovered, the lint-config step creates no file, the settings
document is still written, and the run exits with status 0. -/
theorem C8_missing_pyproject_settings_still_written (argv : List String)
    (workspace_root : String) (major minor : Nat) (fs : FS)
    (python_path_env interpreter_path : String) (st : MainState)
    (hlen : ¬ argv.length < 2)
    (h1 : (find_paths_and_packages workspace_root
        (get_python_version_string major minor) (argv.getD 1 "") major minor
        fs python_path_env).1 ≠ [])
    (hpy : st.pyproject = none) (hro : st.settingsRead ≠ .osError) :
    run_pyproject_step none (find_paths_and_packages workspace_root
        (get_python_version_string major minor) (argv.getD 1 "") major minor
        fs python_path_env).2 = none
    ∧ run_main argv workspace_root major minor fs python_path_env
        interpreter_path st
      = .ok ⟨0, some (set_settings_keys (settings_data_of st.settingsRead)
          (find_paths_and_packages workspace_root
            (get_python_version_string major minor) (argv.getD 1 "") major
            minor fs python_path_env).1 interpreter_path), none⟩ := by
  have hq_none : main_pyproject_after st.pyproject
      (find_paths_and_packages workspace_root
        (get_python_version_string major minor) (argv.getD 1 "") major minor
        fs python_path_env).2 = none := by
    rw [hpy, main_pyproject_after]
    by_cases h2 : (find_paths_and_packages workspace_root
        (get_python_version_string major minor) (argv.getD 1 "") major minor
        fs python_path_env).2 = []
    · rw [if_pos h2]
    · rw [if_neg h2]; rfl
  refine ⟨rfl, ?_⟩
  rw [run_main_ok argv workspace_root major minor fs python_path_env
    interpreter_path st hlen h1 hro, hq_none]

/-- Witness for C8 at a concrete input: one environment-provided search
path, no pyproject document. -/
theorem C8_missing_pyproject_settings_still_written_witness :
    ¬ (["prog", "kilted"] : List String).length < 2
    ∧ (find_paths_and_packages "/ws" (get_python_version_string 3 12)
        ((["prog", "kilted"] : List String).getD 1 "") 3 12 fsPkgLib
        "").1 ≠ []
    ∧ (MainState.mk (.parsed []) none).pyproject = none
    ∧ (MainState.mk (.parsed []) none).settingsRead ≠ .osError
    ∧ (run_pyproject_step none (find_paths_and_packages "/ws"
          (get_python_version_string 3 12)
          ((["prog", "kilted"] : List String).getD 1 "") 3 12 fsPkgLib
          "").2 = none
      ∧ run_main ["prog", "kilted"] "/ws" 3 12 fsPkgLib "" "/py"
          (MainState.mk (.parsed []) none)
        = .ok ⟨0, some (set_settings_keys
            (settings_data_of (MainState.mk (.parsed [])
              none).settingsRead)
            (find_paths_and_packages "/ws" (get_python_version_string 3 12)
              ((["prog", "kilted"] : List String).getD 1 "") 3 12 fsPkgLib
              "").1 "/py"), none⟩) :=
  ⟨by decide, by decide, rfl, fun hc => SettingsRead.noConfusion hc,
   C8_missing_pyproject_settings_still_written ["prog", "kilted"] "/ws" 3 12
     fsPkgLib "" "/py" (MainState.mk (.parsed []) none) (by decide)
     (by decide) rfl (fun hc => SettingsRead.noConfusion hc)⟩

/-- C9: after the settings writer runs, the six owned keys are bound to
the interpreter path, the search-path list twice, the fixed basic
type-checking mode, the fixed open-files-only diagnostic mode, and the
false configure-on-open flag, regardless of their prior values. -/
theorem C9_owned_keys_overwritten (d : Doc) (python_paths : List String)
    (interpreter_path : String) :
    getKey (set_settings_keys d python_paths interpreter_path)
        "python.defaultInterpreterPath" = some (.jstr interpreter_path)
    ∧ getKey (set_settings_keys d python_paths interpreter_path)
        "python.analysis.extraPaths" = some (.jarr (python_paths.map .jstr))
    ∧ getKey (set_settings_keys d python_paths interpreter_path)
        "python.autoComplete.extraPaths"
      = some (.jarr (python_paths.map .jstr))
    ∧ getKey (set_settings_keys d python_paths interpreter_path)
        "python.analysis.typeCheckingMode" = some (.jstr "basic")
    ∧ getKey (set_settings_keys d python_paths interpreter_path)
        "python.analysis.diagnosticMode" = some (.jstr "openFilesOnly")
    ∧ getKey (set_settings_keys d python_paths interpreter_path)
        "cmake.configureOnOpen" = some (.jbool false) :=
  set_settings_keys_spec d python_paths interpreter_path

/-- C10: on the settings-read path only a JSON parse failure is
contained as an empty document; an OS-level error while opening or
reading the existing settings file propagates out of the settings
writer and aborts the run. -/
theorem C10_only_parse_failure_contained (argv : List String)
    (workspace_root : String) (major minor : Nat) (fs : FS)
    (python_path_env interpreter_path : String) (st : MainState)
    (python_paths : List String)
    (hlen : ¬ argv.length < 2)
    (h1 : (find_paths_and_packages workspace_root
        (get_python_version_string major minor) (argv.getD 1 "") major minor
        fs python_path_env).1 ≠ [])
    (hro : st.settingsRead = .osError) :
    update_vscode_settings .parseError python_paths interpreter_path
      = .ok (set_settings_keys [] python_paths interpreter_path)
    ∧ update_vscode_settings .osError python_paths interpreter_path
      = .error ()
    ∧ run_main argv workspace_root major minor fs python_path_env
        interpreter_path st = .error () :=
  ⟨rfl, rfl, run_main_os_error argv workspace_root major minor fs
    python_path_env interpreter_path st hlen h1 hro⟩

/-- Witness for C10 at a concrete input: the settings file exists but
reading it raises an OS-level error; the run aborts. -/
theorem C10_only_parse_failure_contained_witness :
    ¬ (["prog", "kilted"] : List String).length < 2
    ∧ (find_paths_and_packages "/ws" (get_python_version_string 3 12)
        ((["prog", "kilted"] : List String).getD 1 "") 3 12 fsPkgLib
        "").1 ≠ []
    ∧ (MainState.mk .osError none).settingsRead = .osError
    ∧ (update_vscode_settings .parseError ["/p"] "/py"
        = .ok (set_settings_keys [] ["/p"] "/py")
      ∧ update_vscode_settings .osError ["/p"] "/py" = .error ()
      ∧ run_main ["prog", "kilted"] "/ws" 3 12 fsPkgLib "" "/py"
          (MainState.mk .osError none) = .error ()) :=
  ⟨by decide, by decide, rfl,
   C10_only_parse_failure_contained ["prog", "kilted"] "/ws" 3 12 fsPkgLib
     "" "/py" (MainState.mk .osError none) ["/p"] (by decide)
     (by decide) rfl⟩

end SetupVscode
